import Mathlib

/-!
# Verification of the urban-mobility core (pipeline.py, dashboard.py)

Shallow embedding of the repository's core logic:
* `pipeline.py`: `TransportType.from_osm_tags`, `TransportStop.from_osm_element`,
  `TransportStop._extract_routes`, `UrbanMobilityPipeline.fetch_transport_stops`,
  `calculate_metrics`, `get_statistics`;
* `dashboard.py` (and the duplicate `dashboard_v5_backup.py`):
  `generate_route_polyline`, `simulate_vehicle_position`.

Modelling conventions:
* Python floats are modelled as exact rationals (`ℚ`); Python's float `%` is
  `pymod a b = a - b * ⌊a / b⌋`, which agrees with Python's sign convention.
* Python dicts of tags are modelled as association lists `List (String × String)`
  in insertion order; `dict.get` is first-match lookup.
* Code that can raise is modelled with `Except PyExc`; `KeyError` from a missing
  dict key is explicit.
* Python's `min(iterable, key=...)` returns the first element attaining the
  minimal key. In `generate_route_polyline` the key is the Euclidean distance
  `(dx^2 + dy^2) ** 0.5`; square root is strictly monotone on nonnegative
  reals, so the first-minimum under the square root is the first-minimum under
  the squared distance, which is what `dist2` computes in `ℚ`.
* `random.randint(2, 8)` is modelled by an explicit draw parameter `d : ℤ`;
  the library contract guarantees `2 ≤ d ≤ 8`.
-/

/-- First-match lookup in an association list, modelling Python `dict.get`. -/
def dictGet (tags : List (String × String)) (k : String) : Option String :=
  (tags.find? (fun kv => kv.1 == k)).map (·.2)

/-- `charsStartWith p l` holds when `p` is an initial run of `l`. -/
def charsStartWith : List Char → List Char → Bool
  | [], _ => true
  | _ :: _, [] => false
  | a :: ps, b :: ls => a == b && charsStartWith ps ls

/-- `charsHaveSub p l`: `p` occurs as a contiguous run inside `l`. -/
def charsHaveSub (p : List Char) : List Char → Bool
  | [] => p.isEmpty
  | l@(_ :: rest) => charsStartWith p l || charsHaveSub p rest

/-- Python's `pat in s` substring test. -/
def strHasSub (s pat : String) : Bool :=
  charsHaveSub pat.data s.data

/-- Python `str.lower()` (ASCII case folding; the tag keys involved are
ASCII, where the two agree). -/
def pyLower (s : String) : String := String.mk (s.data.map Char.toLower)

/-- Python `str.strip()`: drop leading and trailing whitespace. -/
def pyStrip (s : String) : String :=
  String.mk (((s.data.dropWhile Char.isWhitespace).reverse.dropWhile Char.isWhitespace).reverse)

/-- Splitting helper for `pySplitSemi`, accumulating the current piece. -/
def splitSemiAux (acc : List Char) : List Char → List (List Char)
  | [] => [acc.reverse]
  | x :: xs => if x == ';' then acc.reverse :: splitSemiAux [] xs else splitSemiAux (x :: acc) xs

/-- Python `v.split(';')`: empty input gives `[""]`, adjacent separators give
empty pieces. -/
def pySplitSemi (s : String) : List String := (splitSemiAux [] s.data).map String.mk

/-- Order-preserving deduplication keeping the first occurrence, modelling
Python's `list(dict.fromkeys(xs))`. -/
def dedupFirstAux (seen : List String) : List String → List String
  | [] => []
  | x :: xs => if x ∈ seen then dedupFirstAux seen xs else x :: dedupFirstAux (x :: seen) xs

/-- Deduplicate preserving first-seen order. -/
def dedupFirst (l : List String) : List String := dedupFirstAux [] l

/-- Python float `a % b` (result has the sign of `b`), on exact rationals. -/
def pymod (a b : ℚ) : ℚ := a - b * ⌊a / b⌋

/-- Python `round(x, 2)` modelled on rationals. Python rounds ties to even;
no claim exercises a tie, so nearest-integer rounding is used. -/
def round2 (q : ℚ) : ℚ := ((round (q * 100) : ℤ) : ℚ) / 100

/-- Enumeration `TransportType` from pipeline.py. -/
inductive TransportType
  | BUS | SUBWAY | TRAM | TRAIN | FERRY | LIGHT_RAIL
deriving DecidableEq

/-- The `value` string of each `TransportType` member (pipeline.py lines 54-59). -/
def TransportType.value : TransportType → String
  | .BUS => "bus"
  | .SUBWAY => "subway"
  | .TRAM => "tram"
  | .TRAIN => "train"
  | .FERRY => "ferry"
  | .LIGHT_RAIL => "light_rail"

/-- `TransportType.from_osm_tags` (pipeline.py lines 61-97): classify an
attribute bag into a transport type, first match wins, or `none`. -/
def TransportType.from_osm_tags (tags : List (String × String)) : Option TransportType :=
  if dictGet tags "highway" = some "bus_stop" then some .BUS
  else if dictGet tags "railway" = some "station" then some .SUBWAY
  else if dictGet tags "railway" = some "tram_stop" then some .TRAM
  else if dictGet tags "railway" = some "halt" then some .TRAIN
  else if dictGet tags "amenity" = some "ferry_terminal" then some .FERRY
  else if dictGet tags "public_transport" = some "stop_position" ∨
          dictGet tags "public_transport" = some "platform" then
    if strHasSub (pyLower ((dictGet tags "bus").getD "")) "bus" then some .BUS
    else if strHasSub (pyLower ((dictGet tags "tram").getD "")) "tram" then some .TRAM
    else none
  else none

/-- Dataclass `TransportStop` (pipeline.py lines 100-137). -/
structure TransportStop where
  osm_id : String
  name : String
  latitude : ℚ
  longitude : ℚ
  transport_type : TransportType
  operator : Option String := none
  network : Option String := none
  routes : List String := []
  ref : Option String := none
  wheelchair_accessible : Bool := false
  has_shelter : Bool := false
  has_bench : Bool := false
  has_tactile_paving : Bool := false
  metadata : List (String × String) := []
deriving DecidableEq

/-- `TransportStop._extract_routes` (pipeline.py lines 203-232): collect the
`lines` tag split on `;` and every value of a key containing `route`
(case-insensitive) that is truthy, then strip entries, drop entries that strip
to empty, deduplicate first-seen, and take the first 5. -/
def TransportStop.extract_routes (tags : List (String × String)) : List String :=
  let fromLines : List String :=
    match dictGet tags "lines" with
    | some v => pySplitSemi v
    | none => []
  let fromRouteKeys : List String :=
    (tags.filter (fun kv => strHasSub (pyLower kv.1) "route" && kv.2 != "")).map (·.2)
  let routes := fromLines ++ fromRouteKeys
  let routes := (routes.filter (fun r => pyStrip r != "")).map pyStrip
  (dedupFirst routes).take 5

/-- A raw Overpass element as a record with optional fields, modelling the
JSON dict handed to `TransportStop.from_osm_element`. A missing dict key is
`none`; `tags` defaults to the empty bag as in `element.get('tags', {})`. -/
structure OsmElement where
  type : Option String := none
  id : Option Int := none
  lat : Option ℚ := none
  lon : Option ℚ := none
  tags : List (String × String) := []

/-- Python exceptions relevant to the embedded code. `jsonDecodeExc` is
`requests.exceptions.JSONDecodeError`, raised by `Response.json()` on a
malformed body. -/
inductive PyExc
  | keyError (k : String)
  | timeoutExc
  | requestExc
  | jsonDecodeExc
deriving DecidableEq

/-- `TransportStop.from_osm_element` (pipeline.py lines 163-201). Subscript
access `element['id']`, `element['lat']`, `element['lon']` raises `KeyError`
when the key is absent; the keyword arguments of the constructor call are
evaluated in source order (`osm_id`, then `latitude`, then `longitude`), so
the first missing one of `id`, `lat`, `lon` determines the raised error. -/
def TransportStop.from_osm_element (e : OsmElement) : Except PyExc (Option TransportStop) :=
  if e.type ≠ some "node" then .ok none
  else
    let tags := e.tags
    match TransportType.from_osm_tags tags with
    | none => .ok none
    | some tt =>
      let routes := TransportStop.extract_routes tags
      match e.id with
      | none => .error (.keyError "id")
      | some i =>
        match e.lat with
        | none => .error (.keyError "lat")
        | some la =>
          match e.lon with
          | none => .error (.keyError "lon")
          | some lo =>
            .ok (some
              { osm_id := toString i
                name := (dictGet tags "name").getD "Unnamed Stop"
                latitude := la
                longitude := lo
                transport_type := tt
                operator := dictGet tags "operator"
                network := dictGet tags "network"
                routes := routes
                ref := dictGet tags "ref"
                wheelchair_accessible := dictGet tags "wheelchair" == some "yes"
                has_shelter := dictGet tags "shelter" == some "yes"
                has_bench := dictGet tags "bench" == some "yes"
                has_tactile_paving := dictGet tags "tactile_paving" == some "yes"
                metadata := tags })

/-- The `accessibility` sub-dictionary of `calculate_metrics` (pipeline.py
lines 445-456): five counts with their rounded percentages. -/
structure AccessibilityMetrics where
  wheelchair_accessible : ℕ
  wheelchair_pct : ℚ
  with_shelter : ℕ
  shelter_pct : ℚ
  with_bench : ℕ
  bench_pct : ℚ
  with_tactile_paving : ℕ
  tactile_pct : ℚ
  with_route_info : ℕ
  routes_pct : ℚ
deriving DecidableEq

/-- The dictionary returned by `calculate_metrics`. On the empty input the
code returns `'accessibility': {}`, modelled as `none`. -/
structure MetricsResult where
  total_stops : ℕ
  by_type : List (String × ℕ)
  accessibility : Option AccessibilityMetrics
deriving DecidableEq

/-- `by_type[name] = by_type.get(name, 0) + 1` on an insertion-ordered dict. -/
def bumpKey : List (String × ℕ) → String → List (String × ℕ)
  | [], k => [(k, 1)]
  | (k', v) :: rest, k =>
    if k' = k then (k', v + 1) :: rest else (k', v) :: bumpKey rest k

/-- The `by_type` counting loop of `calculate_metrics` (pipeline.py 430-433). -/
def byTypeCounts (stops : List TransportStop) : List (String × ℕ) :=
  stops.foldl (fun acc s => bumpKey acc s.transport_type.value) []

/-- `UrbanMobilityPipeline.calculate_metrics` (pipeline.py lines 407-457).
The empty-input guard returns total 0 with empty mappings; otherwise counts
and percentages are computed with `total = len(stops) > 0`, so the divisions
are by a positive number. -/
def calculate_metrics (stops : List TransportStop) : MetricsResult :=
  if stops.isEmpty then
    { total_stops := 0, by_type := [], accessibility := none }
  else
    let total : ℕ := stops.length
    let wheelchair := (stops.filter (·.wheelchair_accessible)).length
    let shelter := (stops.filter (·.has_shelter)).length
    let bench := (stops.filter (·.has_bench)).length
    let tactile := (stops.filter (·.has_tactile_paving)).length
    let routes := (stops.filter (fun s => !s.routes.isEmpty)).length
    { total_stops := total
      by_type := byTypeCounts stops
      accessibility := some
        { wheelchair_accessible := wheelchair
          wheelchair_pct := round2 ((wheelchair : ℚ) / (total : ℚ) * 100)
          with_shelter := shelter
          shelter_pct := round2 ((shelter : ℚ) / (total : ℚ) * 100)
          with_bench := bench
          bench_pct := round2 ((bench : ℚ) / (total : ℚ) * 100)
          with_tactile_paving := tactile
          tactile_pct := round2 ((tactile : ℚ) / (total : ℚ) * 100)
          with_route_info := routes
          routes_pct := round2 ((routes : ℚ) / (total : ℚ) * 100) } }

/-- The mutable counters of `self.stats` relevant to `get_statistics`. -/
structure PipelineStats where
  stops_processed : ℕ
  stops_failed : ℕ
  api_calls : ℕ
deriving DecidableEq

/-- The `success_rate` entry computed by `get_statistics` (pipeline.py lines
520-537): the guarded ratio, `0` when both counters are zero. -/
def success_rate (st : PipelineStats) : ℚ :=
  if st.stops_processed + st.stops_failed > 0 then
    (st.stops_processed : ℚ) / ((st.stops_processed : ℚ) + (st.stops_failed : ℚ))
  else 0

/-- `get_statistics` returns the stats dict extended with `success_rate`. -/
def get_statistics (st : PipelineStats) : PipelineStats × ℚ :=
  (st, success_rate st)

/-- Outcome of one attempt of the Overpass request in
`fetch_transport_stops`: the transport layer times out, fails otherwise,
delivers a body that fails JSON decoding, or delivers a parsed element list. -/
inductive FetchOutcome
  | timeout
  | reqError
  | malformed
  | success (elems : List OsmElement)

/-- Observable events of the retry loop: issuing attempt `n` (0-based) and
`time.sleep(secs)`. -/
inductive FetchEvent
  | attemptQuery (n : ℕ)
  | sleep (secs : ℕ)
deriving DecidableEq

/-- Result of `fetch_transport_stops`: a returned stop list together with the
increments applied to `stops_processed` and `stops_failed`, or a propagated
exception. -/
inductive FetchResult
  | ok (stops : List TransportStop) (processed failed : ℕ)
  | raised (e : PyExc)
deriving DecidableEq

/-- The exception raised inside the `try` block for each failing outcome. -/
def outcomeExc : FetchOutcome → PyExc
  | .timeout => .timeoutExc
  | .malformed => .jsonDecodeExc
  | _ => .requestExc

/-- `except requests.exceptions.Timeout` clause test. -/
def isTimeoutExc : PyExc → Bool
  | .timeoutExc => true
  | _ => false

/-- `except requests.exceptions.RequestException` clause test. Per the
hierarchy of the pinned library (`requests>=2.31.0` in setup.py):
`Timeout ⊂ RequestException` and
`JSONDecodeError ⊂ InvalidJSONError ⊂ RequestException`, while `KeyError` is
unrelated. -/
def isRequestExc : PyExc → Bool
  | .timeoutExc => true
  | .requestExc => true
  | .jsonDecodeExc => true
  | .keyError _ => false

/-- The element-parsing loop of `fetch_transport_stops` (pipeline.py lines
379-386): convert each element, appending successes and counting failures;
an exception from `from_osm_element` aborts the loop and propagates. -/
def parseElements : List OsmElement → Except PyExc (List TransportStop × ℕ × ℕ)
  | [] => .ok ([], 0, 0)
  | e :: rest =>
    match TransportStop.from_osm_element e with
    | .error exc => .error exc
    | .ok none =>
      (parseElements rest).map (fun r => (r.1, r.2.1, r.2.2 + 1))
    | .ok (some st) =>
      (parseElements rest).map (fun r => (st :: r.1, r.2.1 + 1, r.2.2))

/-- The `FetchResult` produced by a successful response body. -/
def parseResult (elems : List OsmElement) : FetchResult :=
  match parseElements elems with
  | .ok r => .ok r.1 r.2.1 r.2.2
  | .error exc => .raised exc

/-- The two `except` clauses of `fetch_transport_stops` (pipeline.py lines
391-403) applied to the exception `exc` raised on attempt `a`, with `recur`
the behaviour of the remaining attempts: a clause that matches sleeps
`retry_delay = 5` and retries when `attempt < max_retries - 1`, else
re-raises; an unmatched exception propagates at once. -/
def excStep (a : ℕ) (exc : PyExc) (recur : List FetchEvent × FetchResult) :
    List FetchEvent × FetchResult :=
  if isTimeoutExc exc then
    if a < 3 - 1 then (.attemptQuery a :: .sleep 5 :: recur.1, recur.2)
    else ([.attemptQuery a], .raised exc)
  else if isRequestExc exc then
    if a < 3 - 1 then (.attemptQuery a :: .sleep 5 :: recur.1, recur.2)
    else ([.attemptQuery a], .raised exc)
  else ([.attemptQuery a], .raised exc)

/-- The `for attempt in range(max_retries)` loop of `fetch_transport_stops`,
driven by an oracle `att` giving the outcome of each attempt. The `[]` case
is the `return []` after the loop (unreachable on `[0, 1, 2]` because the
final failing attempt re-raises). -/
def fetchLoop (att : ℕ → FetchOutcome) : List ℕ → List FetchEvent × FetchResult
  | [] => ([], .ok [] 0 0)
  | a :: rest =>
    match att a with
    | .success elems => ([.attemptQuery a], parseResult elems)
    | .timeout => excStep a .timeoutExc (fetchLoop att rest)
    | .reqError => excStep a .requestExc (fetchLoop att rest)
    | .malformed => excStep a .jsonDecodeExc (fetchLoop att rest)

/-- `UrbanMobilityPipeline.fetch_transport_stops` (pipeline.py lines 311-405)
as a function of the per-attempt outcome oracle: `max_retries = 3` attempts
numbered 0, 1, 2. -/
def fetch_transport_stops (att : ℕ → FetchOutcome) : List FetchEvent × FetchResult :=
  fetchLoop att [0, 1, 2]

/-- Transport-level failure outcomes of one attempt. -/
def isFetchFailure (o : FetchOutcome) : Prop :=
  o = .timeout ∨ o = .reqError ∨ o = .malformed

/-- Count the `attemptQuery` events of a trace. -/
def countAttempts (tr : List FetchEvent) : ℕ :=
  (tr.filter (fun e => match e with | .attemptQuery _ => true | _ => false)).length

/-- Squared Euclidean distance in (lat, lon) degree-space between two stops.
The Python key is the square root of this quantity; square root is strictly
monotone on nonnegative rationals, so first-minimum selection agrees. -/
def dist2 (a b : TransportStop) : ℚ :=
  (a.latitude - b.latitude) ^ 2 + (a.longitude - b.longitude) ^ 2

/-- Python's `min(cur :: l, key=f)` as (index into `cur :: l`, key value):
the first element attaining the minimal key; ties keep the earlier element. -/
def argminAux (f : TransportStop → ℚ) : TransportStop → List TransportStop → ℕ × ℚ
  | cur, [] => (0, f cur)
  | cur, s :: rest =>
    let p := argminAux f s rest
    if p.2 < f cur then (p.1 + 1, p.2) else (0, f cur)

/-- The nearest-neighbor `while remaining:` loop of `generate_route_polyline`
(dashboard.py lines 544-551), with explicit fuel. Each iteration removes
exactly one element, so the loop runs exactly `remaining.length` times;
`nnLoop` supplies that fuel. `min(remaining, key=...)` is the first minimum
and `remaining.remove(nearest)` removes it, modelled by `eraseIdx` at the
first-minimum index. -/
def nnLoopFuel (f : TransportStop → TransportStop → ℚ) :
    ℕ → TransportStop → List TransportStop → List TransportStop
  | 0, _, _ => []
  | _ + 1, _, [] => []
  | fuel + 1, last, s :: rest =>
    (s :: rest).getD (argminAux (f last) s rest).1 s ::
      nnLoopFuel f fuel ((s :: rest).getD (argminAux (f last) s rest).1 s)
        ((s :: rest).eraseIdx (argminAux (f last) s rest).1)

/-- The nearest-neighbor ordering loop started from `last` over `remaining`. -/
def nnLoop (last : TransportStop) (remaining : List TransportStop) : List TransportStop :=
  nnLoopFuel dist2 remaining.length last remaining

/-- `generate_route_polyline` (dashboard.py lines 536-552): filter the stops
serving `route_name`, return `None` when fewer than 2 match, otherwise order
them greedily by nearest neighbor starting from the first match and return
the (lat, lon) list together with the ordered stops. -/
def generate_route_polyline (stops : List TransportStop) (route_name : String) :
    Option (List (ℚ × ℚ) × List TransportStop) :=
  match stops.filter (fun s => s.routes.contains route_name) with
  | [] => none
  | [_] => none
  | s :: rest =>
    let ordered := s :: nnLoop s rest
    some (ordered.map (fun x => (x.latitude, x.longitude)), ordered)

/-- The dict returned by `simulate_vehicle_position` (dashboard.py 590-597). -/
structure VehicleSnapshot where
  position : ℚ × ℚ
  last_stop : String
  current_stop : String
  next_stop : String
  status : String
  eta : ℤ
deriving DecidableEq

/-- Placeholder stop for the total modelling of in-range list indexing. -/
def dummyStop : TransportStop :=
  { osm_id := "", name := "", latitude := 0, longitude := 0, transport_type := .BUS }

/-- `progress = (vehicle_id / total_vehicles + (time.time() % 60) / 600) % 1.0`
(dashboard.py line 559), with `t` the current wall-clock seconds. -/
def progressOf (v n : ℕ) (t : ℚ) : ℚ :=
  pymod ((v : ℚ) / (n : ℚ) + pymod t 60 / 600) 1

/-- `total_segments = len(route_points) - 1`. -/
def segCount (pts : List (ℚ × ℚ)) : ℕ := pts.length - 1

/-- `current_segment = int(progress * total_segments)` followed by the clamp
`if current_segment >= total_segments: current_segment = total_segments - 1`
(dashboard.py lines 561-564). `int` truncation equals `⌊⌋.toNat` because the
progress value is nonnegative. -/
def curSeg (pts : List (ℚ × ℚ)) (v n : ℕ) (t : ℚ) : ℕ :=
  if (⌊progressOf v n t * (segCount pts : ℚ)⌋).toNat ≥ segCount pts then segCount pts - 1
  else (⌊progressOf v n t * (segCount pts : ℚ)⌋).toNat

/-- `local_progress = (progress * total_segments) - current_segment`
(dashboard.py line 572), with the clamped segment index. -/
def localProg (pts : List (ℚ × ℚ)) (v n : ℕ) (t : ℚ) : ℚ :=
  progressOf v n t * (segCount pts : ℚ) - (curSeg pts v n t : ℚ)

/-- The conditional stop-name expressions of dashboard.py lines 569-570:
`route_stops[idx].name if idx < len(route_stops) else fallback`. -/
def stopNameAt (rs : List TransportStop) (i : ℕ) (fallback : String) : String :=
  if i < rs.length then (rs.getD i dummyStop).name else fallback

/-- Local variables `p1`, `p2`, `lat`, `lon` of dashboard.py lines 573-577:
linear interpolation within the current segment. -/
def interpPos (pts : List (ℚ × ℚ)) (v n : ℕ) (t : ℚ) : ℚ × ℚ :=
  ((pts.getD (curSeg pts v n t) (0, 0)).1 +
     ((pts.getD (min (curSeg pts v n t + 1) (pts.length - 1)) (0, 0)).1 -
      (pts.getD (curSeg pts v n t) (0, 0)).1) * localProg pts v n t,
   (pts.getD (curSeg pts v n t) (0, 0)).2 +
     ((pts.getD (min (curSeg pts v n t + 1) (pts.length - 1)) (0, 0)).2 -
      (pts.getD (curSeg pts v n t) (0, 0)).2) * localProg pts v n t)

/-- `simulate_vehicle_position` (dashboard.py lines 555-600): `v` the vehicle
index, `n` the total vehicle count, `t` the wall-clock seconds, `d` the value
drawn by `random.randint(2, 8)`. Stop-name indexing follows the code's
guarded conditional expressions; for the in-range indices of every claim it
coincides with Python list indexing. -/
def simulate_vehicle_position (pts : List (ℚ × ℚ)) (rs : List TransportStop)
    (v n : ℕ) (t : ℚ) (d : ℤ) : Option VehicleSnapshot :=
  if pts.length < 2 then none
  else if localProg pts v n t < 1 / 10 then
    some { position := interpPos pts v n t
           last_stop := stopNameAt rs (curSeg pts v n t) "Unknown"
           current_stop := stopNameAt rs (curSeg pts v n t) "Unknown"
           next_stop := stopNameAt rs (min (curSeg pts v n t + 1) (rs.length - 1)) "Terminal"
           status := "At Stop"
           eta := 0 }
  else if localProg pts v n t > 9 / 10 then
    some { position := interpPos pts v n t
           last_stop := stopNameAt rs (curSeg pts v n t) "Unknown"
           current_stop := stopNameAt rs (min (curSeg pts v n t + 1) (rs.length - 1)) "Terminal"
           next_stop := stopNameAt rs (min (curSeg pts v n t + 1) (rs.length - 1)) "Terminal"
           status := "Arriving"
           eta := 1 }
  else
    some { position := interpPos pts v n t
           last_stop := stopNameAt rs (curSeg pts v n t) "Unknown"
           current_stop := stopNameAt rs (curSeg pts v n t) "Unknown"
           next_stop := stopNameAt rs (min (curSeg pts v n t + 1) (rs.length - 1)) "Terminal"
           status := "In Transit"
           eta := d }

/-- The `while remaining:` loop of `generate_route_polyline` in
dashboard_v5_backup.py (lines 593-602), transcribed separately from its own
source text (which is identical to dashboard.py's). -/
def nnLoopFuelV5 (f : TransportStop → TransportStop → ℚ) :
    ℕ → TransportStop → List TransportStop → List TransportStop
  | 0, _, _ => []
  | _ + 1, _, [] => []
  | fuel + 1, last, s :: rest =>
    (s :: rest).getD (argminAux (f last) s rest).1 s ::
      nnLoopFuelV5 f fuel ((s :: rest).getD (argminAux (f last) s rest).1 s)
        ((s :: rest).eraseIdx (argminAux (f last) s rest).1)

/-- `generate_route_polyline` of dashboard_v5_backup.py (lines 587-604). -/
def generate_route_polyline_v5 (stops : List TransportStop) (route_name : String) :
    Option (List (ℚ × ℚ) × List TransportStop) :=
  match stops.filter (fun s => s.routes.contains route_name) with
  | [] => none
  | [_] => none
  | s :: rest =>
    let ordered := s :: nnLoopFuelV5 dist2 rest.length s rest
    some (ordered.map (fun x => (x.latitude, x.longitude)), ordered)

/-- `simulate_vehicle_position` of dashboard_v5_backup.py (lines 607-656),
transcribed with its `current_segment_float` intermediate. -/
def simulate_vehicle_position_v5 (pts : List (ℚ × ℚ)) (rs : List TransportStop)
    (v n : ℕ) (t : ℚ) (d : ℤ) : Option VehicleSnapshot :=
  if pts.length < 2 then none
  else
    let progress := pymod ((v : ℚ) / (n : ℚ) + pymod t 60 / 600) 1
    let segs := pts.length - 1
    let csf := progress * (segs : ℚ)
    let cs0 := (⌊csf⌋).toNat
    let cs := if cs0 ≥ segs then segs - 1 else cs0
    let nextIdx := min (cs + 1) (rs.length - 1)
    let lastName := if cs < rs.length then (rs.getD cs dummyStop).name else "Unknown"
    let nextName := if nextIdx < rs.length then (rs.getD nextIdx dummyStop).name else "Terminal"
    let lp := csf - (cs : ℚ)
    let p1 := pts.getD cs (0, 0)
    let p2 := pts.getD (min (cs + 1) (pts.length - 1)) (0, 0)
    let pos : ℚ × ℚ := (p1.1 + (p2.1 - p1.1) * lp, p1.2 + (p2.2 - p1.2) * lp)
    if lp < 1 / 10 then
      some { position := pos, last_stop := lastName, current_stop := lastName,
             next_stop := nextName, status := "At Stop", eta := 0 }
    else if lp > 9 / 10 then
      some { position := pos, last_stop := lastName, current_stop := nextName,
             next_stop := nextName, status := "Arriving", eta := 1 }
    else
      some { position := pos, last_stop := lastName, current_stop := lastName,
             next_stop := nextName, status := "In Transit", eta := d }

/-- `NNSpec last remaining out`: `out` is a greedy nearest-neighbor traversal
of `remaining` started at `last` — at each step the appended stop is one of
the not-yet-visited stops attaining the minimal squared distance (hence the
minimal Euclidean distance) to the last-added stop, and it is then removed
from the unvisited pool, so no stop is ever revisited. -/
inductive NNSpec : TransportStop → List TransportStop → List TransportStop → Prop
  | nil (last : TransportStop) : NNSpec last [] []
  | cons (last : TransportStop) (rem : List TransportStop) (i : ℕ) (out : List TransportStop)
      (hi : i < rem.length)
      (hmin : ∀ s ∈ rem, dist2 last (rem.get ⟨i, hi⟩) ≤ dist2 last s)
      (hrec : NNSpec (rem.get ⟨i, hi⟩) (rem.eraseIdx i) out) :
      NNSpec last rem (rem.get ⟨i, hi⟩ :: out)

/-- Route extraction as the claim literally words it: trimmed non-empty
segments of `lines`, followed by the raw non-empty values of every other key
containing `route` (case-insensitive), deduplicated first-seen, first 5. -/
def extractRoutesClaimed (tags : List (String × String)) : List String :=
  let fromLines : List String :=
    match dictGet tags "lines" with
    | some v => ((pySplitSemi v).map pyStrip).filter (fun r => r != "")
    | none => []
  let fromRouteKeys : List String :=
    (tags.filter (fun kv =>
      kv.1 != "lines" && strHasSub (pyLower kv.1) "route" && kv.2 != "")).map (·.2)
  (dedupFirst (fromLines ++ fromRouteKeys)).take 5

/-- Route extraction as the amended claim words it: trimmed non-whitespace
segments of `lines`, followed by the trimmed values of every key containing
`route` (case-insensitive) whose value is non-empty, dropping values that trim
to empty, deduplicated case-sensitively first-seen, first 5. -/
def extractRoutesAmendedSpec (tags : List (String × String)) : List String :=
  let fromLines : List String :=
    match dictGet tags "lines" with
    | some v => ((pySplitSemi v).filter (fun r => pyStrip r != "")).map pyStrip
    | none => []
  let fromRouteKeys : List String :=
    ((tags.filter (fun kv => strHasSub (pyLower kv.1) "route" && kv.2 != "")).map (·.2)
      |>.filter (fun r => pyStrip r != "")).map pyStrip
  (dedupFirst (fromLines ++ fromRouteKeys)).take 5

/-- A classified point element whose `lat` key is absent: `type` is `node`,
the tags classify as BUS, `id` and `lon` are present, `lat` is missing. -/
def elemMissingLat : OsmElement :=
  { type := some "node", id := some 1, lon := some 0, tags := [("highway", "bus_stop")] }

/-- Attempt oracle: the first response body is malformed, every later attempt
succeeds with an empty element list. -/
def attMalformedFirst : ℕ → FetchOutcome :=
  fun a => if a = 0 then .malformed else .success []

/-- Attempt oracle: every attempt times out. -/
def attAllTimeout : ℕ → FetchOutcome := fun _ => .timeout

/-- One stop serving route 10: fewer than the 2 matches a polyline needs. -/
def stopsOne : List TransportStop :=
  [{ osm_id := "1", name := "A", latitude := 0, longitude := 0,
     transport_type := .BUS, routes := ["10"] }]

/-- A two-point path and its parallel two-stop sequence. -/
def ptsPair : List (ℚ × ℚ) := [(0, 0), (1, 1)]

/-- The stop sequence parallel to `ptsPair`. -/
def rsPair : List TransportStop :=
  [{ osm_id := "1", name := "A", latitude := 0, longitude := 0,
     transport_type := .BUS, routes := ["10"] },
   { osm_id := "2", name := "B", latitude := 1, longitude := 1,
     transport_type := .BUS, routes := ["10"] }]

/-- A 17-point path (16 segments) along the equator: point `k` is `(k, 0)`. -/
def pts17 : List (ℚ × ℚ) :=
  [(0, 0), (1, 0), (2, 0), (3, 0), (4, 0), (5, 0), (6, 0), (7, 0), (8, 0),
   (9, 0), (10, 0), (11, 0), (12, 0), (13, 0), (14, 0), (15, 0), (16, 0)]

/-- The stop sequence parallel to `pts17`. -/
def rs17 : List TransportStop :=
  (List.range 17).map (fun k =>
    { osm_id := toString k, name := toString k, latitude := (k : ℚ), longitude := 0,
      transport_type := .BUS, routes := ["10"] })

/-! ## Helper lemmas about list indexing and the argmin selection -/

theorem getD_eq_get (l : List TransportStop) :
    ∀ (i : ℕ) (d : TransportStop) (h : i < l.length), l.getD i d = l.get ⟨i, h⟩ := by
  induction l with
  | nil => intro i d h; simp at h
  | cons x xs ih =>
    intro i d h
    cases i with
    | zero => rfl
    | succ j =>
      have h' : j < xs.length := by simpa using h
      simpa using ih j d h'

theorem eraseIdx_length (l : List TransportStop) :
    ∀ (i : ℕ), i < l.length → (l.eraseIdx i).length + 1 = l.length := by
  induction l with
  | nil => intro i h; simp at h
  | cons x xs ih =>
    intro i h
    cases i with
    | zero => simp [List.eraseIdx]
    | succ j =>
      have h' : j < xs.length := by simpa using h
      have := ih j h'
      simp only [List.eraseIdx_cons_succ, List.length_cons]
      omega

theorem argminAux_fst_lt (f : TransportStop → ℚ) :
    ∀ (l : List TransportStop) (cur : TransportStop), (argminAux f cur l).1 < l.length + 1 := by
  intro l
  induction l with
  | nil => intro cur; simp [argminAux]
  | cons s rest ih =>
    intro cur
    simp only [argminAux, List.length_cons]
    split
    · exact Nat.succ_lt_succ (ih s)
    · exact Nat.succ_pos _

theorem argminAux_snd_eq (f : TransportStop → ℚ) :
    ∀ (l : List TransportStop) (cur : TransportStop),
      (argminAux f cur l).2 = f ((cur :: l).getD (argminAux f cur l).1 cur) := by
  intro l
  induction l with
  | nil => intro cur; rfl
  | cons s rest ih =>
    intro cur
    simp only [argminAux]
    split
    · have hlt : (argminAux f s rest).1 < (s :: rest).length := by
        simpa using argminAux_fst_lt f rest s
      have hd : (s :: rest).getD (argminAux f s rest).1 cur =
          (s :: rest).getD (argminAux f s rest).1 s := by
        rw [getD_eq_get _ _ _ hlt, getD_eq_get _ _ _ hlt]
      show (argminAux f s rest).2 = f ((s :: rest).getD (argminAux f s rest).1 cur)
      rw [hd]
      exact ih s
    · rfl

theorem argminAux_min (f : TransportStop → ℚ) :
    ∀ (l : List TransportStop) (cur : TransportStop),
      ∀ x ∈ cur :: l, (argminAux f cur l).2 ≤ f x := by
  intro l
  induction l with
  | nil =>
    intro cur x hx
    rcases List.mem_singleton.mp hx with rfl
    exact le_refl _
  | cons s rest ih =>
    intro cur x hx
    simp only [argminAux]
    rcases List.mem_cons.mp hx with rfl | hx'
    · split
      case isTrue h => exact le_of_lt h
      case isFalse h => exact le_refl _
    · have hmin := ih s x hx'
      split
      case isTrue h => exact hmin
      case isFalse h => exact le_trans (not_lt.mp h) hmin

theorem perm_get_cons_eraseIdx (l : List TransportStop) :
    ∀ (i : ℕ) (h : i < l.length), l.Perm (l.get ⟨i, h⟩ :: l.eraseIdx i) := by
  induction l with
  | nil => intro i h; simp at h
  | cons x xs ih =>
    intro i h
    cases i with
    | zero => simp [List.eraseIdx]
    | succ j =>
      have hj : j < xs.length := by simpa using h
      have h1 : (x :: xs).Perm (x :: xs.get ⟨j, hj⟩ :: xs.eraseIdx j) := (ih j hj).cons x
      have h2 : (x :: xs.get ⟨j, hj⟩ :: xs.eraseIdx j).Perm
          (xs.get ⟨j, hj⟩ :: x :: xs.eraseIdx j) := List.Perm.swap _ _ _
      simpa using h1.trans h2

/-! ## Lemmas about the nearest-neighbor loop -/

theorem nnLoopFuel_perm (f : TransportStop → TransportStop → ℚ) :
    ∀ (fuel : ℕ) (rem : List TransportStop) (last : TransportStop),
      rem.length ≤ fuel → (nnLoopFuel f fuel last rem).Perm rem := by
  intro fuel
  induction fuel with
  | zero =>
    intro rem last h
    have : rem = [] := List.length_eq_zero.mp (Nat.le_zero.mp h)
    subst this
    simp [nnLoopFuel]
  | succ fl ih =>
    intro rem last h
    cases rem with
    | nil => simp [nnLoopFuel]
    | cons s rest =>
      simp only [nnLoopFuel]
      have hi : (argminAux (f last) s rest).1 < (s :: rest).length := by
        simpa using argminAux_fst_lt (f last) rest s
      have herase := eraseIdx_length (s :: rest) _ hi
      have hrec := ih ((s :: rest).eraseIdx (argminAux (f last) s rest).1)
        ((s :: rest).getD (argminAux (f last) s rest).1 s)
        (by simp only [List.length_cons] at h herase; omega)
      rw [getD_eq_get _ _ _ hi] at hrec ⊢
      exact ((hrec.cons _).trans (perm_get_cons_eraseIdx _ _ hi).symm)

theorem nnLoopFuel_spec :
    ∀ (fuel : ℕ) (rem : List TransportStop) (last : TransportStop),
      rem.length ≤ fuel → NNSpec last rem (nnLoopFuel dist2 fuel last rem) := by
  intro fuel
  induction fuel with
  | zero =>
    intro rem last h
    have : rem = [] := List.length_eq_zero.mp (Nat.le_zero.mp h)
    subst this
    exact NNSpec.nil last
  | succ fl ih =>
    intro rem last h
    cases rem with
    | nil => exact NNSpec.nil last
    | cons s rest =>
      simp only [nnLoopFuel]
      have hi : (argminAux (dist2 last) s rest).1 < (s :: rest).length := by
        simpa using argminAux_fst_lt (dist2 last) rest s
      have herase := eraseIdx_length (s :: rest) _ hi
      have hrec := ih ((s :: rest).eraseIdx (argminAux (dist2 last) s rest).1)
        ((s :: rest).getD (argminAux (dist2 last) s rest).1 s)
        (by simp only [List.length_cons] at h herase; omega)
      rw [getD_eq_get _ _ _ hi]
      have hmin : ∀ x ∈ s :: rest,
          dist2 last ((s :: rest).get ⟨(argminAux (dist2 last) s rest).1, hi⟩) ≤ dist2 last x := by
        intro x hx
        have h2 := argminAux_snd_eq (dist2 last) rest s
        have h3 := argminAux_min (dist2 last) rest s x hx
        rw [getD_eq_get _ _ _ hi] at h2
        rw [h2] at h3
        exact h3
      have hrec' : NNSpec ((s :: rest).get ⟨(argminAux (dist2 last) s rest).1, hi⟩)
          ((s :: rest).eraseIdx (argminAux (dist2 last) s rest).1)
          (nnLoopFuel dist2 fl ((s :: rest).get ⟨(argminAux (dist2 last) s rest).1, hi⟩)
            ((s :: rest).eraseIdx (argminAux (dist2 last) s rest).1)) := by
        rw [getD_eq_get _ _ _ hi] at hrec
        exact hrec
      exact NNSpec.cons last (s :: rest) _ _ hi hmin hrec'

theorem nnLoop_perm (last : TransportStop) (rem : List TransportStop) :
    (nnLoop last rem).Perm rem :=
  nnLoopFuel_perm dist2 rem.length rem last le_rfl

theorem nnLoop_spec (last : TransportStop) (rem : List TransportStop) :
    NNSpec last rem (nnLoop last rem) :=
  nnLoopFuel_spec rem.length rem last le_rfl

theorem nnLoopFuelV5_eq (f : TransportStop → TransportStop → ℚ) :
    ∀ (fuel : ℕ) (last : TransportStop) (rem : List TransportStop),
      nnLoopFuelV5 f fuel last rem = nnLoopFuel f fuel last rem := by
  intro fuel
  induction fuel with
  | zero => intro last rem; rfl
  | succ fl ih =>
    intro last rem
    cases rem with
    | nil => rfl
    | cons s rest => simp only [nnLoopFuelV5, nnLoopFuel, ih]

/-! ## Numeric lemmas for the vehicle simulator -/

theorem pymod_eq_fract (a : ℚ) {b : ℚ} (hb : b ≠ 0) :
    pymod a b = b * Int.fract (a / b) := by
  unfold pymod Int.fract
  field_simp

theorem pymod_nonneg (a : ℚ) {b : ℚ} (hb : 0 < b) : 0 ≤ pymod a b := by
  rw [pymod_eq_fract a hb.ne']
  exact mul_nonneg hb.le (Int.fract_nonneg _)

theorem pymod_lt (a : ℚ) {b : ℚ} (hb : 0 < b) : pymod a b < b := by
  rw [pymod_eq_fract a hb.ne']
  calc b * Int.fract (a / b) < b * 1 :=
        mul_lt_mul_of_pos_left (Int.fract_lt_one _) hb
    _ = b := mul_one b

theorem pymod_eq_self {a b : ℚ} (h0 : 0 ≤ a) (hab : a < b) : pymod a b = a := by
  have hb : 0 < b := lt_of_le_of_lt h0 hab
  have hz : ⌊a / b⌋ = 0 := by
    rw [Int.floor_eq_zero_iff]
    constructor
    · exact div_nonneg h0 hb.le
    · exact (div_lt_one hb).mpr hab
  unfold pymod
  rw [hz]
  ring

theorem progressOf_nonneg (v n : ℕ) (t : ℚ) : 0 ≤ progressOf v n t :=
  pymod_nonneg _ one_pos

theorem progressOf_lt_one (v n : ℕ) (t : ℚ) : progressOf v n t < 1 :=
  pymod_lt _ one_pos

theorem rawSeg_lt (pts : List (ℚ × ℚ)) (v n : ℕ) (t : ℚ) (h : 1 ≤ segCount pts) :
    (⌊progressOf v n t * (segCount pts : ℚ)⌋).toNat < segCount pts := by
  have hpos : (0 : ℚ) < (segCount pts : ℚ) := by exact_mod_cast h
  have h1 : progressOf v n t * (segCount pts : ℚ) < (segCount pts : ℚ) := by
    nlinarith [progressOf_lt_one v n t, progressOf_nonneg v n t]
  have h2 : ⌊progressOf v n t * (segCount pts : ℚ)⌋ < (segCount pts : ℤ) :=
    Int.floor_lt.mpr (by exact_mod_cast h1)
  omega

theorem curSeg_eq (pts : List (ℚ × ℚ)) (v n : ℕ) (t : ℚ) (h : 1 ≤ segCount pts) :
    curSeg pts v n t = (⌊progressOf v n t * (segCount pts : ℚ)⌋).toNat := by
  unfold curSeg
  rw [if_neg]
  exact Nat.not_le.mpr (rawSeg_lt pts v n t h)

theorem curSeg_le (pts : List (ℚ × ℚ)) (v n : ℕ) (t : ℚ) :
    curSeg pts v n t ≤ segCount pts - 1 := by
  unfold curSeg
  split
  · exact le_refl _
  case isFalse hn => omega

theorem rawSeg_cast (pts : List (ℚ × ℚ)) (v n : ℕ) (t : ℚ) :
    (((⌊progressOf v n t * (segCount pts : ℚ)⌋).toNat : ℕ) : ℚ) =
      (⌊progressOf v n t * (segCount pts : ℚ)⌋ : ℚ) := by
  have hx : 0 ≤ ⌊progressOf v n t * (segCount pts : ℚ)⌋ := by
    apply Int.floor_nonneg.mpr
    have : (0 : ℚ) ≤ (segCount pts : ℚ) := by positivity
    exact mul_nonneg (progressOf_nonneg v n t) this
  exact_mod_cast Int.toNat_of_nonneg hx

theorem localProg_eq_fract (pts : List (ℚ × ℚ)) (v n : ℕ) (t : ℚ) (h : 1 ≤ segCount pts) :
    localProg pts v n t = Int.fract (progressOf v n t * (segCount pts : ℚ)) := by
  unfold localProg Int.fract
  rw [curSeg_eq pts v n t h, rawSeg_cast]

/-! ## Claim theorems -/

/-- C1: the claim says a raw element missing required geometry (missing
latitude/longitude) is recovered locally by rejection and never raises to the
caller. The code evaluated at a classified point element whose `lat` key is
absent raises `KeyError('lat')` instead, and the error propagates through the
parsing loop (it is caught by neither `except` clause of
`fetch_transport_stops`). The two genuinely recovered cases — not a point
entity, unclassified type — do return a rejection that is tallied in the
failure counter. -/
theorem C1_missing_geometry_raises :
    TransportStop.from_osm_element elemMissingLat = .error (.keyError "lat") ∧
    parseElements [elemMissingLat] = .error (.keyError "lat") ∧
    TransportStop.from_osm_element { type := some "way", id := some 2 } = .ok none ∧
    parseElements [{ type := some "way", id := some 2 }] = .ok ([], 0, 1) :=
  ⟨rfl, rfl, rfl, rfl⟩

/-- C3 counterexample: on the empty Stop collection `calculate_metrics`
returns an empty accessibility mapping — the five percentages are absent, not
defined as zero, refuting the claim that each is defined and equal to zero. -/
theorem C3_empty_accessibility_absent :
    (calculate_metrics []).accessibility = none := rfl

/-- C3 (amended): on the empty Stop collection `calculate_metrics` returns
total count 0 with an empty by-type mapping and an empty accessibility
mapping; the guarded early return means no division by zero occurs (the
dividing branch is reached only with a positive `total`). -/
theorem C3_empty_metrics :
    calculate_metrics [] = { total_stops := 0, by_type := [], accessibility := none } := rfl

/-- C4: for every attribute bag whose `highway` key maps to `bus_stop`,
classification returns BUS regardless of the other keys present — rule 1 is
checked first and first match wins. -/
theorem C4_highway_bus_stop (tags : List (String × String))
    (h : dictGet tags "highway" = some "bus_stop") :
    TransportType.from_osm_tags tags = some TransportType.BUS := by
  unfold TransportType.from_osm_tags
  rw [if_pos h]

/-- C4 witness: a bag carrying `railway=station` and `amenity=ferry_terminal`
alongside `highway=bus_stop` still classifies as BUS. -/
theorem C4_highway_bus_stop_witness :
    dictGet [("railway", "station"), ("highway", "bus_stop"),
      ("amenity", "ferry_terminal")] "highway" = some "bus_stop" ∧
    TransportType.from_osm_tags [("railway", "station"), ("highway", "bus_stop"),
      ("amenity", "ferry_terminal")] = some TransportType.BUS :=
  ⟨rfl, C4_highway_bus_stop _ rfl⟩

/-- C5 counterexample: the claim words the result as the raw non-empty values
of the route keys, but the code also strips those values (and drops values
that strip to empty): on the bag `route_ref = " 42 "` the code returns
`["42"]` while the claimed description gives `[" 42 "]`. -/
theorem C5_claimed_wording_fails :
    TransportStop.extract_routes [("route_ref", " 42 ")] = ["42"] ∧
    extractRoutesClaimed [("route_ref", " 42 ")] = [" 42 "] ∧
    TransportStop.extract_routes [("route_ref", " 42 ")] ≠
      extractRoutesClaimed [("route_ref", " 42 ")] := by
  refine ⟨rfl, rfl, ?_⟩
  decide

/-- C5 (amended): route extraction returns the trimmed non-whitespace
segments of the `lines` value split on `;` (in order), followed by the
trimmed values of every key containing the substring `route`
(case-insensitive) whose value is non-empty — dropping entries that trim to
empty — deduplicated case-sensitively preserving first-seen order and
truncated to the first 5 entries; in particular `lines = "107M;177H;178"`
yields `["107M", "177H", "178"]` in that order. -/
theorem C5_extract_routes_amended :
    (∀ tags, TransportStop.extract_routes tags = extractRoutesAmendedSpec tags) ∧
    TransportStop.extract_routes [("lines", "107M;177H;178")] = ["107M", "177H", "178"] := by
  refine ⟨fun tags => ?_, rfl⟩
  unfold TransportStop.extract_routes extractRoutesAmendedSpec
  cases hl : dictGet tags "lines" with
  | none => simp
  | some v => simp [List.filter_append, List.map_append]

/-- C9: `get_statistics` never divides by zero — `success_rate` equals
`stops_processed / (stops_processed + stops_failed)` whenever that sum is
positive and is exactly 0 when both counters are zero, for every counter
state (the counters are naturals, so this covers every reachable state). -/
theorem C9_success_rate_guarded (p f a : ℕ) :
    (0 < p + f →
      success_rate { stops_processed := p, stops_failed := f, api_calls := a } =
        (p : ℚ) / ((p : ℚ) + (f : ℚ))) ∧
    (p = 0 → f = 0 →
      success_rate { stops_processed := p, stops_failed := f, api_calls := a } = 0) := by
  constructor
  · intro h
    unfold success_rate
    rw [if_pos h]
  · intro hp hf
    subst hp
    subst hf
    unfold success_rate
    norm_num

/-- C9 witness: with 3 processed and 1 failed the rate is 3/4. -/
theorem C9_success_rate_guarded_witness :
    0 < 3 + 1 ∧
    success_rate { stops_processed := 3, stops_failed := 1, api_calls := 0 } =
      (3 : ℚ) / ((3 : ℚ) + (1 : ℚ)) :=
  ⟨by decide, (C9_success_rate_guarded 3 1 0).1 (by decide)⟩

/-! ## C2: retry schedule of fetch_transport_stops -/

theorem countAttempts_cons_attempt (a : ℕ) (tr : List FetchEvent) :
    countAttempts (.attemptQuery a :: tr) = countAttempts tr + 1 := rfl

theorem countAttempts_cons_sleep (k : ℕ) (tr : List FetchEvent) :
    countAttempts (.sleep k :: tr) = countAttempts tr := rfl

theorem excStep_attempts_le (a : ℕ) (exc : PyExc) (recur : List FetchEvent × FetchResult)
    (m : ℕ) (hrec : countAttempts recur.1 ≤ m) :
    countAttempts (excStep a exc recur).1 ≤ m + 1 := by
  have e1 : countAttempts [FetchEvent.attemptQuery a] = 1 := rfl
  unfold excStep
  split
  · split
    · simp only [countAttempts_cons_attempt, countAttempts_cons_sleep]
      omega
    · simp only [e1]
      omega
  · split
    · split
      · simp only [countAttempts_cons_attempt, countAttempts_cons_sleep]
        omega
      · simp only [e1]
        omega
    · simp only [e1]
      omega

theorem fetchLoop_attempts_le (att : ℕ → FetchOutcome) :
    ∀ l : List ℕ, countAttempts (fetchLoop att l).1 ≤ l.length := by
  intro l
  induction l with
  | nil => simp [fetchLoop, countAttempts]
  | cons a rest ih =>
    cases ha : att a with
    | success elems =>
      simp only [fetchLoop, ha]
      exact Nat.succ_le_succ (Nat.zero_le _)
    | timeout =>
      simp only [fetchLoop, ha]
      exact excStep_attempts_le _ _ _ _ ih
    | reqError =>
      simp only [fetchLoop, ha]
      exact excStep_attempts_le _ _ _ _ ih
    | malformed =>
      simp only [fetchLoop, ha]
      exact excStep_attempts_le _ _ _ _ ih

/-- C2 (amended): `fetch_transport_stops` performs at most 3 attempts; every
transport-level failure — timeout, request error, or malformed response body,
the latter raising `JSONDecodeError`, a subtype of `RequestException` in the
pinned `requests>=2.31.0` — on a non-final attempt is followed by the fixed
`time.sleep(5)` delay and a retry, a success ends the loop at once, and a
failure on the third attempt propagates the original exception, so the caller
can distinguish a timeout from another transport error (and from a JSON
decode error). The original claim's assertion that a malformed body is never
retried is refuted by `C2_malformed_retried`. -/
theorem C2_retry_schedule (att : ℕ → FetchOutcome) :
    (∀ elems, att 0 = .success elems →
      fetch_transport_stops att = ([.attemptQuery 0], parseResult elems)) ∧
    (isFetchFailure (att 0) → ∀ elems, att 1 = .success elems →
      fetch_transport_stops att =
        ([.attemptQuery 0, .sleep 5, .attemptQuery 1], parseResult elems)) ∧
    (isFetchFailure (att 0) → isFetchFailure (att 1) → ∀ elems, att 2 = .success elems →
      fetch_transport_stops att =
        ([.attemptQuery 0, .sleep 5, .attemptQuery 1, .sleep 5, .attemptQuery 2],
         parseResult elems)) ∧
    (isFetchFailure (att 0) → isFetchFailure (att 1) → isFetchFailure (att 2) →
      fetch_transport_stops att =
        ([.attemptQuery 0, .sleep 5, .attemptQuery 1, .sleep 5, .attemptQuery 2],
         .raised (outcomeExc (att 2)))) ∧
    countAttempts (fetch_transport_stops att).1 ≤ 3 := by
  refine ⟨?_, ?_, ?_, ?_, ?_⟩
  · intro elems h0
    simp [fetch_transport_stops, fetchLoop, h0]
  · intro hf0 elems h1
    rcases hf0 with h0 | h0 | h0 <;>
      simp [fetch_transport_stops, fetchLoop, h0, h1, excStep, isTimeoutExc, isRequestExc]
  · intro hf0 hf1 elems h2
    rcases hf0 with h0 | h0 | h0 <;> rcases hf1 with h1 | h1 | h1 <;>
      simp [fetch_transport_stops, fetchLoop, h0, h1, h2, excStep, isTimeoutExc, isRequestExc]
  · intro hf0 hf1 hf2
    rcases hf0 with h0 | h0 | h0 <;> rcases hf1 with h1 | h1 | h1 <;>
      rcases hf2 with h2 | h2 | h2 <;>
      simp [fetch_transport_stops, fetchLoop, h0, h1, h2, excStep, isTimeoutExc, isRequestExc,
        outcomeExc]
  · exact fetchLoop_attempts_le att [0, 1, 2]

/-- C2 counterexample: a malformed response body on the first attempt IS
retried — `requests.exceptions.JSONDecodeError` is a subclass of
`RequestException` (requests>=2.31.0, the version pinned in setup.py), so the
second `except` clause catches it, sleeps 5, and retries; the call then
returns the second attempt's parsed result instead of surfacing the decode
error on the attempt where it occurred. -/
theorem C2_malformed_retried :
    fetch_transport_stops attMalformedFirst =
      ([.attemptQuery 0, .sleep 5, .attemptQuery 1], .ok [] 0 0) ∧
    (fetch_transport_stops attMalformedFirst).2 ≠ .raised .jsonDecodeExc :=
  ⟨rfl, by decide⟩

/-- C2 witness: with every attempt timing out, the call issues attempts 0, 1
and 2 separated by 5-unit sleeps and propagates the timeout. -/
theorem C2_retry_schedule_witness :
    fetch_transport_stops attAllTimeout =
      ([.attemptQuery 0, .sleep 5, .attemptQuery 1, .sleep 5, .attemptQuery 2],
       .raised .timeoutExc) :=
  (C2_retry_schedule attAllTimeout).2.2.2.1 (Or.inl rfl) (Or.inl rfl) (Or.inl rfl)

/-- C6: for every Stop collection and target route identifier, if fewer than
2 stops carry the identifier the Route Topology Builder returns absence;
otherwise it returns the ordered stops (with their (lat, lon) projection),
which are a permutation of exactly the matching stops (each visited once,
length equal to the match count), start with the first matching stop in input
order, and satisfy the greedy invariant `NNSpec`: each step appends an
unvisited stop of minimal Euclidean distance (equivalently minimal squared
distance) to the last-added stop. The result is a pure function of the input,
hence deterministic for a stable input order. -/
theorem C6_route_topology (stops : List TransportStop) (route_name : String) :
    ((stops.filter (fun s => s.routes.contains route_name)).length < 2 →
      generate_route_polyline stops route_name = none) ∧
    (2 ≤ (stops.filter (fun s => s.routes.contains route_name)).length →
      ∃ first rest tailOut,
        stops.filter (fun s => s.routes.contains route_name) = first :: rest ∧
        generate_route_polyline stops route_name =
          some ((first :: tailOut).map (fun x => (x.latitude, x.longitude)),
            first :: tailOut) ∧
        (first :: tailOut).Perm (first :: rest) ∧
        (first :: tailOut).length = (first :: rest).length ∧
        NNSpec first rest tailOut) := by
  rcases hf : stops.filter (fun s => s.routes.contains route_name) with _ | ⟨s, rest2⟩
  · constructor
    · intro _
      unfold generate_route_polyline
      rw [hf]
    · intro h2
      rw [hf] at h2
      simp at h2
  · cases rest2 with
    | nil =>
      constructor
      · intro _
        unfold generate_route_polyline
        rw [hf]
      · intro h2
        rw [hf] at h2
        simp at h2
    | cons s2 rest3 =>
      constructor
      · intro h1
        rw [hf] at h1
        simp only [List.length_cons] at h1
        omega
      · intro _
        refine ⟨s, s2 :: rest3, nnLoop s (s2 :: rest3), hf, ?_, ?_, ?_, ?_⟩
        · unfold generate_route_polyline
          rw [hf]
        · exact (nnLoop_perm s (s2 :: rest3)).cons s
        · exact ((nnLoop_perm s (s2 :: rest3)).cons s).length_eq
        · exact nnLoop_spec s (s2 :: rest3)

/-- C6 witness: with a single stop serving route 10 the builder returns
absence. -/
theorem C6_route_topology_witness :
    (stopsOne.filter (fun s => s.routes.contains "10")).length < 2 ∧
    generate_route_polyline stopsOne "10" = none :=
  ⟨by decide, (C6_route_topology stopsOne "10").1 (by decide)⟩

/-- C7: for every route path with at least 2 points, its parallel stop
sequence, a positive vehicle count and a draw in the `randint(2, 8)` range,
the simulator returns a snapshot whose last/next stop are the current
segment's start/end stops independent of status, and whose status is
`At Stop` (ETA 0, current stop = segment start) when the local progress is
below 0.1, `Arriving` (ETA 1, current stop = segment end) when it is above
0.9, and `In Transit` (ETA in [2, 8], current stop = segment start)
otherwise. -/
theorem C7_status_thresholds (pts : List (ℚ × ℚ)) (rs : List TransportStop)
    (v n : ℕ) (t : ℚ) (d : ℤ) (h2 : 2 ≤ pts.length) (hpar : rs.length = pts.length)
    (hn : 0 < n) (hd1 : 2 ≤ d) (hd2 : d ≤ 8) :
    ∃ snap, simulate_vehicle_position pts rs v n t d = some snap ∧
      snap.last_stop = (rs.getD (curSeg pts v n t) dummyStop).name ∧
      snap.next_stop = (rs.getD (curSeg pts v n t + 1) dummyStop).name ∧
      (localProg pts v n t < 1 / 10 →
        snap.status = "At Stop" ∧ snap.eta = 0 ∧ snap.current_stop = snap.last_stop) ∧
      (localProg pts v n t > 9 / 10 →
        snap.status = "Arriving" ∧ snap.eta = 1 ∧ snap.current_stop = snap.next_stop) ∧
      (1 / 10 ≤ localProg pts v n t ∧ localProg pts v n t ≤ 9 / 10 →
        snap.status = "In Transit" ∧ 2 ≤ snap.eta ∧ snap.eta ≤ 8 ∧
          snap.current_stop = snap.last_stop) := by
  have hseg : 1 ≤ segCount pts := by unfold segCount; omega
  have hcs : curSeg pts v n t ≤ segCount pts - 1 := curSeg_le pts v n t
  have hcs_lt : curSeg pts v n t < rs.length := by
    unfold segCount at hseg hcs; omega
  have hnext_lt : curSeg pts v n t + 1 < rs.length := by
    unfold segCount at hseg hcs; omega
  have hminIdx : min (curSeg pts v n t + 1) (rs.length - 1) = curSeg pts v n t + 1 := by
    unfold segCount at hseg hcs; omega
  have hlast : stopNameAt rs (curSeg pts v n t) "Unknown" =
      (rs.getD (curSeg pts v n t) dummyStop).name := by
    unfold stopNameAt
    rw [if_pos hcs_lt]
  have hnextName : stopNameAt rs (min (curSeg pts v n t + 1) (rs.length - 1)) "Terminal" =
      (rs.getD (curSeg pts v n t + 1) dummyStop).name := by
    unfold stopNameAt
    rw [hminIdx, if_pos hnext_lt]
  unfold simulate_vehicle_position
  rw [if_neg (show ¬ pts.length < 2 by omega)]
  by_cases hA : localProg pts v n t < 1 / 10
  · rw [if_pos hA]
    refine ⟨_, rfl, hlast, hnextName, ?_, ?_, ?_⟩
    · intro _
      exact ⟨rfl, rfl, rfl⟩
    · intro hB
      exfalso
      linarith
    · intro hB
      exfalso
      have := hB.1
      linarith
  · rw [if_neg hA]
    by_cases hB : localProg pts v n t > 9 / 10
    · rw [if_pos hB]
      refine ⟨_, rfl, hlast, hnextName, ?_, ?_, ?_⟩
      · intro h
        exact absurd h hA
      · intro _
        exact ⟨rfl, rfl, rfl⟩
      · intro hC
        exfalso
        have := hC.2
        linarith
    · rw [if_neg hB]
      refine ⟨_, rfl, hlast, hnextName, ?_, ?_, ?_⟩
      · intro h
        exact absurd h hA
      · intro h
        exact absurd h hB
      · intro _
        exact ⟨rfl, hd1, hd2, rfl⟩

/-- C7 witness: the two-point path with parallel stops at vehicle 0 of 1,
time 0 and draw 5. -/
theorem C7_status_thresholds_witness :
    2 ≤ ptsPair.length ∧ rsPair.length = ptsPair.length ∧ 0 < 1 ∧
      2 ≤ (5 : ℤ) ∧ (5 : ℤ) ≤ 8 ∧
    (∃ snap, simulate_vehicle_position ptsPair rsPair 0 1 0 5 = some snap ∧
      snap.last_stop = (rsPair.getD (curSeg ptsPair 0 1 0) dummyStop).name ∧
      snap.next_stop = (rsPair.getD (curSeg ptsPair 0 1 0 + 1) dummyStop).name ∧
      (localProg ptsPair 0 1 0 < 1 / 10 →
        snap.status = "At Stop" ∧ snap.eta = 0 ∧ snap.current_stop = snap.last_stop) ∧
      (localProg ptsPair 0 1 0 > 9 / 10 →
        snap.status = "Arriving" ∧ snap.eta = 1 ∧ snap.current_stop = snap.next_stop) ∧
      (1 / 10 ≤ localProg ptsPair 0 1 0 ∧ localProg ptsPair 0 1 0 ≤ 9 / 10 →
        snap.status = "In Transit" ∧ 2 ≤ snap.eta ∧ snap.eta ≤ 8 ∧
          snap.current_stop = snap.last_stop)) :=
  ⟨by decide, by decide, by decide, by decide, by decide,
    C7_status_thresholds ptsPair rsPair 0 1 0 5 (by decide) (by decide) (by decide)
      (by decide) (by decide)⟩

/-- C8 counterexample: the claim asserts that for vehicle 0 of 1, whenever
`local_progress` equals 0 the returned position equals the FIRST path point.
On the 17-point path at `t = 37.5` the progress is 1/16, so the vehicle sits
at the start of segment 1 with `local_progress = 0`, and the returned
position is the second path point `(1, 0)`, not the first `(0, 0)`. -/
theorem C8_local_progress_zero_not_first :
    localProg pts17 0 1 (75 / 2) = 0 ∧
    (simulate_vehicle_position pts17 rs17 0 1 (75 / 2) 5).map (fun s => s.position) =
      some (1, 0) ∧
    pts17.getD 0 (0, 0) = (0, 0) ∧
    ((1 : ℚ), (0 : ℚ)) ≠ ((0 : ℚ), (0 : ℚ)) := by
  have hm1 : pymod ((75 : ℚ) / 2) 60 = 75 / 2 :=
    pymod_eq_self (by norm_num) (by norm_num)
  have hprog : progressOf 0 1 (75 / 2) = 1 / 16 := by
    unfold progressOf
    rw [hm1]
    rw [show ((0 : ℕ) : ℚ) / ((1 : ℕ) : ℚ) + (75 : ℚ) / 2 / 600 = 1 / 16 by push_cast; norm_num]
    exact pymod_eq_self (by norm_num) (by norm_num)
  have hseg17 : segCount pts17 = 16 := rfl
  have hcs17 : curSeg pts17 0 1 (75 / 2) = 1 := by
    rw [curSeg_eq pts17 0 1 (75 / 2) (by rw [hseg17]; omega), hprog, hseg17]
    rw [show (1 / 16 : ℚ) * ((16 : ℕ) : ℚ) = 1 by push_cast; norm_num]
    simp
  have hlp17 : localProg pts17 0 1 (75 / 2) = 0 := by
    unfold localProg
    rw [hprog, hseg17, hcs17]
    push_cast
    norm_num
  refine ⟨hlp17, ?_, rfl, by simp⟩
  unfold simulate_vehicle_position
  rw [if_neg (by decide : ¬ pts17.length < 2)]
  rw [if_pos (by rw [hlp17]; norm_num : localProg pts17 0 1 ((75 : ℚ) / 2) < 1 / 10)]
  simp only [Option.map_some']
  unfold interpPos
  rw [hcs17, hlp17]
  rw [show pts17.getD 1 (0, 0) = ((1 : ℚ), (0 : ℚ)) from rfl]
  norm_num

/-- C8 (amended): the simulator computes the cyclic progress as
`(v / n + (t mod 60) / 600) mod 1`, maps it to the segment index
`floor(progress × segment_count)` clamped to the last segment, and linearly
interpolates the position within that segment between its two endpoints; the
clamp never fires in exact arithmetic, so the index equals
`min(floor(progress × segment_count), segment_count - 1)`. For vehicle 0 of
1, whenever the computed PROGRESS equals 0 (rather than the per-segment local
progress of the original claim), the position equals the first path point
exactly. -/
theorem C8_progress_segments (pts : List (ℚ × ℚ)) (rs : List TransportStop)
    (v n : ℕ) (t : ℚ) (d : ℤ) (h2 : 2 ≤ pts.length) (hn : 0 < n) :
    ∃ snap, simulate_vehicle_position pts rs v n t d = some snap ∧
      progressOf v n t = pymod ((v : ℚ) / (n : ℚ) + pymod t 60 / 600) 1 ∧
      curSeg pts v n t =
        min (⌊progressOf v n t * (segCount pts : ℚ)⌋).toNat (segCount pts - 1) ∧
      snap.position =
        ((pts.getD (curSeg pts v n t) (0, 0)).1 +
          ((pts.getD (curSeg pts v n t + 1) (0, 0)).1 -
            (pts.getD (curSeg pts v n t) (0, 0)).1) * localProg pts v n t,
         (pts.getD (curSeg pts v n t) (0, 0)).2 +
          ((pts.getD (curSeg pts v n t + 1) (0, 0)).2 -
            (pts.getD (curSeg pts v n t) (0, 0)).2) * localProg pts v n t) ∧
      (progressOf v n t = 0 → snap.position = pts.getD 0 (0, 0)) := by
  have hseg : 1 ≤ segCount pts := by unfold segCount; omega
  have hcs : curSeg pts v n t ≤ segCount pts - 1 := curSeg_le pts v n t
  have hp2 : min (curSeg pts v n t + 1) (pts.length - 1) = curSeg pts v n t + 1 := by
    unfold segCount at hseg hcs; omega
  have hmin : curSeg pts v n t =
      min (⌊progressOf v n t * (segCount pts : ℚ)⌋).toNat (segCount pts - 1) := by
    rw [curSeg_eq pts v n t hseg]
    have hlt := rawSeg_lt pts v n t hseg
    omega
  have hposition : interpPos pts v n t =
      ((pts.getD (curSeg pts v n t) (0, 0)).1 +
        ((pts.getD (curSeg pts v n t + 1) (0, 0)).1 -
          (pts.getD (curSeg pts v n t) (0, 0)).1) * localProg pts v n t,
       (pts.getD (curSeg pts v n t) (0, 0)).2 +
        ((pts.getD (curSeg pts v n t + 1) (0, 0)).2 -
          (pts.getD (curSeg pts v n t) (0, 0)).2) * localProg pts v n t) := by
    unfold interpPos
    rw [hp2]
  have hzero : progressOf v n t = 0 → interpPos pts v n t = pts.getD 0 (0, 0) := by
    intro hp0
    have hcs0 : curSeg pts v n t = 0 := by
      rw [curSeg_eq pts v n t hseg, hp0]
      simp
    have hlp0 : localProg pts v n t = 0 := by
      unfold localProg
      rw [hp0, hcs0]
      simp
    unfold interpPos
    rw [hcs0, hlp0]
    simp
  unfold simulate_vehicle_position
  rw [if_neg (show ¬ pts.length < 2 by omega)]
  by_cases hA : localProg pts v n t < 1 / 10
  · rw [if_pos hA]
    exact ⟨_, rfl, rfl, hmin, hposition, hzero⟩
  · rw [if_neg hA]
    by_cases hB : localProg pts v n t > 9 / 10
    · rw [if_pos hB]
      exact ⟨_, rfl, rfl, hmin, hposition, hzero⟩
    · rw [if_neg hB]
      exact ⟨_, rfl, rfl, hmin, hposition, hzero⟩

/-- C8 witness: the two-point path at vehicle 0 of 1 and time 0, where the
progress is 0 and the position is the first point. -/
theorem C8_progress_segments_witness :
    2 ≤ ptsPair.length ∧ 0 < 1 ∧
    (∃ snap, simulate_vehicle_position ptsPair rsPair 0 1 0 5 = some snap ∧
      progressOf 0 1 0 = pymod ((0 : ℚ) / (1 : ℚ) + pymod 0 60 / 600) 1 ∧
      curSeg ptsPair 0 1 0 =
        min (⌊progressOf 0 1 0 * (segCount ptsPair : ℚ)⌋).toNat (segCount ptsPair - 1) ∧
      snap.position =
        ((ptsPair.getD (curSeg ptsPair 0 1 0) (0, 0)).1 +
          ((ptsPair.getD (curSeg ptsPair 0 1 0 + 1) (0, 0)).1 -
            (ptsPair.getD (curSeg ptsPair 0 1 0) (0, 0)).1) * localProg ptsPair 0 1 0,
         (ptsPair.getD (curSeg ptsPair 0 1 0) (0, 0)).2 +
          ((ptsPair.getD (curSeg ptsPair 0 1 0 + 1) (0, 0)).2 -
            (ptsPair.getD (curSeg ptsPair 0 1 0) (0, 0)).2) * localProg ptsPair 0 1 0) ∧
      (progressOf 0 1 0 = 0 → snap.position = ptsPair.getD 0 (0, 0))) :=
  ⟨by decide, by decide,
    C8_progress_segments ptsPair rsPair 0 1 0 5 (by decide) (by decide)⟩

/-- C10: the duplicated core functions of dashboard.py and
dashboard_v5_backup.py are extensionally equal — for every Stop collection
and route identifier the two `generate_route_polyline` transcriptions return
the same (points, ordered stops) result, and for every path, stop sequence,
vehicle index, vehicle count, time and pseudo-random draw the two
`simulate_vehicle_position` transcriptions return the same snapshot. -/
theorem C10_dashboard_v5_equal :
    (∀ stops route_name, generate_route_polyline stops route_name =
      generate_route_polyline_v5 stops route_name) ∧
    (∀ pts rs v n t d, simulate_vehicle_position pts rs v n t d =
      simulate_vehicle_position_v5 pts rs v n t d) := by
  constructor
  · intro stops route_name
    unfold generate_route_polyline generate_route_polyline_v5 nnLoop
    rcases hf : stops.filter (fun s => s.routes.contains route_name) with _ | ⟨s, rest⟩
    · rw [hf]
    · cases rest with
      | nil => rw [hf]
      | cons s2 rest2 =>
        rw [hf]
        simp only [nnLoopFuelV5_eq]
  · intro pts rs v n t d
    rfl
